import Mathlib

/-
Verification of the stock screening pipeline in seeker.py.

The embedding models prices as exact rationals.  NaN propagation from
pandas (undefined rolling values, float 0/0) is modelled with `Option ℚ`:
`none` is NaN.  A Python `try/except` block that logs and returns a
neutral value is modelled by the corresponding total function returning
that neutral value on the exceptional branch; in particular a missing
configuration key (a `KeyError` inside such a block) is modelled by an
`Option` field of `Config` being `none`.
-/

set_option autoImplicit false
set_option maxRecDepth 8000

namespace Seeker

/-- Daily OHLCV row: the columns of the downloaded price frame that
seeker.py reads (High, Low, Close, Volume). -/
structure Row where
  high : ℚ
  low : ℚ
  close : ℚ
  volume : ℚ
deriving DecidableEq, Repr

/-- The parsed configuration dictionary, as returned by `load_config`
from config.json.  `load_config` performs no key validation, so any key
may be absent: `none` models an absent key, which surfaces as a caught
`KeyError` wherever the code reads it.  The last two fields are the
threshold keys named by the spec (`oscillator_low_threshold`,
`oscillator_high_threshold`); seeker.py never reads them. -/
structure Config where
  sma20_window : Option ℕ
  sma200_window : Option ℕ
  cci_window : Option ℕ
  days_before : Option ℕ
  volume_threshold : Option ℚ
  price_threshold : Option ℚ
  oscillator_low_threshold : Option ℚ
  oscillator_high_threshold : Option ℚ
deriving DecidableEq, Repr

/-- Arithmetic mean of a list (pandas `Series.mean`); callers guard the
empty case, where pandas yields NaN. -/
def mean (xs : List ℚ) : ℚ := xs.sum / (xs.length : ℚ)

/-- The last `n` elements of a list (pandas `Series.tail(n)`). -/
def tailN {α : Type} (xs : List α) (n : ℕ) : List α :=
  xs.drop (xs.length - n)

/-- The rolling window of width `w` ending at position `i`:
elements `i + 1 - w` through `i`. -/
def windowSlice (xs : List ℚ) (w i : ℕ) : List ℚ :=
  (xs.take (i + 1)).drop (i + 1 - w)

/-- Rolling mean with `min_periods = w` (as in
`rolling(window=w, min_periods=w).mean()`): NaN (`none`) until `w`
values are available. -/
def rollingMeanAt (xs : List ℚ) (w i : ℕ) : Option ℚ :=
  if 1 ≤ w ∧ w ≤ i + 1 then some (mean (windowSlice xs w i)) else none

/-- Typical price used by the CCI indicator: `(high + low + close) / 3`. -/
def typicalPrice (r : Row) : ℚ := (r.high + r.low + r.close) / 3

/-- Rolling mean absolute deviation of the window ending at `i` from the
window's own mean, as computed by `ta.trend.CCIIndicator`'s rolling
`_mad` helper. -/
def madAt (xs : List ℚ) (w i : ℕ) : ℚ :=
  mean ((windowSlice xs w i).map (fun v => |v - mean (windowSlice xs w i)|))

/-- The CCI value at position `i`, following `ta.trend.CCIIndicator`:
`(tp - SMA(tp, w)) / (0.015 * MAD(tp, w))`, NaN for the first `w - 1`
positions.  When the mean absolute deviation is zero the numerator is
zero as well and the float quotient `0.0 / 0.0` is NaN, hence `none`. -/
def cciAt (data : List Row) (w i : ℕ) : Option ℚ :=
  match rollingMeanAt (data.map typicalPrice) w i with
  | none => none
  | some m =>
      if madAt (data.map typicalPrice) w i = 0 then none
      else some (((data.map typicalPrice).getD i 0 - m) /
        (3 / 200 * madAt (data.map typicalPrice) w i))

/-- A row of the enriched frame after `apply_indicators`: the original
columns plus the `SMA20`, `SMA200` and `CCI` columns, all defined
(rows with any NaN among them are removed by `dropna`). -/
structure ERow where
  row : Row
  sma20 : ℚ
  sma200 : ℚ
  cci : ℚ
deriving DecidableEq, Repr

/-- Out-of-range placeholder for positional row access; never read at
the positions the code actually touches. -/
def emptyRow : Row := ⟨0, 0, 0, 0⟩

/-- Translation of `apply_indicators`: add the two rolling-mean columns
and the CCI column, then drop every row where any of them is NaN.
A missing window key raises a caught `KeyError` and the function
returns an empty frame. -/
def apply_indicators (data : List Row) (cfg : Config) : List ERow :=
  match cfg.sma20_window, cfg.sma200_window, cfg.cci_window with
  | some w1, some w2, some w3 =>
      (List.range data.length).filterMap fun i =>
        match rollingMeanAt (data.map Row.close) w1 i,
              rollingMeanAt (data.map Row.close) w2 i, cciAt data w3 i with
        | some a, some b, some c => some ⟨data.getD i emptyRow, a, b, c⟩
        | _, _, _ => none
  | _, _, _ => []

/-- Translation of `check_cci_rise`: over the last `cci_window` CCI
values, the minimum must be below the hard-coded −100 and the last value
above the hard-coded +100.  On an empty window `iloc[-1]` raises a
caught `IndexError`; a missing key raises a caught `KeyError`; both
yield `false`. -/
def check_cci_rise (data : List ERow) (cfg : Config) : Bool :=
  match cfg.cci_window with
  | none => false
  | some w =>
      match (tailN (data.map ERow.cci) w).min?,
            (tailN (data.map ERow.cci) w).getLast? with
      | some cciMin, some cciCur => decide (cciMin < -100 ∧ 100 < cciCur)
      | _, _ => false

/-- One element of `(sma_diff.shift(1) <= 0) & (sma_diff > 0)`: the
shifted operand is NaN (`none`) at the first position, and a comparison
against NaN is false. -/
def crossFlag (prev : Option ℚ) (d : ℚ) : Bool :=
  match prev with
  | none => false
  | some p => decide (p ≤ 0 ∧ 0 < d)

/-- Builds the crossover flag sequence, threading the previous
difference (the effect of `shift(1)`). -/
def crossoverFlagsAux (prev : Option ℚ) : List ℚ → List Bool
  | [] => []
  | d :: ds => crossFlag prev d :: crossoverFlagsAux (some d) ds

/-- The per-row difference `SMA20 - SMA200` of the enriched frame. -/
def smaDiffs (data : List ERow) : List ℚ :=
  data.map fun r => r.sma20 - r.sma200

/-- The Boolean series `(sma_diff.shift(1) <= 0) & (sma_diff > 0)`. -/
def crossoverFlags (data : List ERow) : List Bool :=
  crossoverFlagsAux none (smaDiffs data)

/-- Translation of `check_sma_crossover`: some flag among the last
`days_before` ones is set.  A missing key yields `false` via the caught
`KeyError`. -/
def check_sma_crossover (data : List ERow) (cfg : Config) : Bool :=
  match cfg.days_before with
  | none => false
  | some k => (tailN (crossoverFlags data) k).any id

/-- Translation of `check_volume_and_price`: mean volume of the last 50
rows strictly above `volume_threshold` and last close strictly above
`price_threshold`.  On an empty frame `iloc[-1]` raises a caught
`IndexError`; a missing key makes the comparison either short-circuit
false or raise a caught `KeyError`; every such branch yields `false`. -/
def check_volume_and_price (data : List Row) (cfg : Config) : Bool :=
  match cfg.volume_threshold, cfg.price_threshold, data.getLast? with
  | some vt, some pt, some lastRow =>
      decide (mean (tailN (data.map Row.volume) 50) > vt ∧ lastRow.close > pt)
  | _, _, _ => false

/-- Translation of `fetch_stock_data`: the provider download is either
an error (caught, empty frame returned) or a frame, which is discarded
when empty or shorter than the hard-coded 200 rows. -/
def fetch_stock_data (download : Except Unit (List Row)) : List Row :=
  match download with
  | .error _ => []
  | .ok data => if data = [] ∨ data.length < 200 then [] else data

/-- Python `round(x, 2)`: scale by 100, round half to even, unscale. -/
def pyRound2 (x : ℚ) : ℚ :=
  let y := x * 100
  let f : ℤ := Int.floor y
  let r : ℚ := y - (f : ℚ)
  let n : ℤ :=
    if r < 1 / 2 then f
    else if 1 / 2 < r then f + 1
    else if f % 2 = 0 then f else f + 1
  (n : ℚ) / 100

/-- Python `int(x)` on a float: truncation toward zero. -/
def intTrunc (x : ℚ) : ℤ :=
  if 0 ≤ x then Int.floor x else Int.ceil x

/-- The result record built by `analyze_stocks` for a passing ticker. -/
structure Result where
  ticker : String
  lastPrice : ℚ
  cci : ℚ
  sma20 : ℚ
  sma200 : ℚ
  avgVolume : ℤ
deriving DecidableEq, Repr

/-- The per-ticker body of the `analyze_stocks` loop, with the three
filter predicates abstracted so that short-circuiting can be stated
independently of them.  Mirrors the `continue` chain of the loop; the
final record reads its columns from the enriched frame (`data` has been
rebound by `apply_indicators` at that point). -/
def processTickerGen (cVP : List Row → Config → Bool)
    (cCCI cX : List ERow → Config → Bool)
    (ticker : String) (download : Except Unit (List Row))
    (cfg : Config) : Option Result :=
  if (fetch_stock_data download).isEmpty then none
  else if !(cVP (fetch_stock_data download) cfg) then none
  else if (apply_indicators (fetch_stock_data download) cfg).isEmpty then none
  else if !(cCCI (apply_indicators (fetch_stock_data download) cfg) cfg) then none
  else if !(cX (apply_indicators (fetch_stock_data download) cfg) cfg) then none
  else
    match (apply_indicators (fetch_stock_data download) cfg).getLast? with
    | none => none
    | some lastRow =>
        some { ticker := ticker
               lastPrice := pyRound2 lastRow.row.close
               cci := pyRound2 lastRow.cci
               sma20 := pyRound2 lastRow.sma20
               sma200 := pyRound2 lastRow.sma200
               avgVolume := intTrunc (mean (tailN
                 ((apply_indicators (fetch_stock_data download) cfg).map
                   fun r => r.row.volume) 50)) }

/-- The per-ticker body with the actual filters of seeker.py. -/
def processTicker : String → Except Unit (List Row) → Config → Option Result :=
  processTickerGen check_volume_and_price check_cci_rise check_sma_crossover

/-- Translation of `analyze_stocks`: fold the per-ticker body over the
ticker universe, collecting the records of passing tickers.  The
provider stands for `yf.download` restricted to the given date range. -/
def analyze_stocks (tickers : List String) (startDate endDate : String)
    (provider : String → String → String → Except Unit (List Row))
    (cfg : Config) : List Result :=
  tickers.filterMap fun t => processTicker t (provider t startDate endDate) cfg

/-- Translation of `load_config`: a file that fails to open or parse
raises (modelled by `none` input); a parsed dictionary is returned with
no validation of its keys. -/
def load_config (file : Option Config) : Except Unit Config :=
  match file with
  | none => .error ()
  | some cfg => .ok cfg

/-- The oscillator-excursion filter as the spec words it, for comparison
with `check_cci_rise`: identical window logic, but the two thresholds
are read from the configuration keys instead of being hard-coded. -/
def check_cci_rise_specModel (data : List ERow) (cfg : Config) : Bool :=
  match cfg.cci_window, cfg.oscillator_low_threshold,
        cfg.oscillator_high_threshold with
  | some w, some lo, some hi =>
      match (tailN (data.map ERow.cci) w).min?,
            (tailN (data.map ERow.cci) w).getLast? with
      | some cciMin, some cciCur => decide (cciMin < lo ∧ hi < cciCur)
      | _, _ => false
  | _, _, _ => false

/- Concrete inputs shared by several witnesses and counterexamples. -/

/-- A day whose high, low and close all equal `v`, with volume 100. -/
def rowOf (v : ℚ) : Row := ⟨v, v, v, 100⟩

/-- A 200-day series: 198 flat days at 10, a dip to 4, a jump to 20. -/
def exData200 : List Row := List.replicate 198 (rowOf 10) ++ [rowOf 4, rowOf 20]

/-- A complete small-window configuration. -/
def exCfg : Config :=
  ⟨some 2, some 4, some 4, some 5, some 1, some 1, some (-100), some 100⟩

/-- The enriched frame that `apply_indicators` produces from
`exData200` under `exCfg` (verified by the theorems below). -/
def exEnriched : List ERow :=
  [⟨rowOf 4, 7, 17 / 2, -400 / 3⟩, ⟨rowOf 20, 12, 11, 400 / 3⟩]

/- Generic evaluation lemmas for the indicator arithmetic. -/

theorem mean_replicate (n : ℕ) (a : ℚ) (h : n ≠ 0) :
    mean (List.replicate n a) = a := by
  unfold mean
  rw [List.sum_replicate, List.length_replicate, nsmul_eq_mul]
  exact mul_div_cancel_left₀ a (by exact_mod_cast h)

theorem windowSlice_flat (l2 : List ℚ) (a : ℚ) (N w i : ℕ)
    (hiN : i + 1 ≤ N) (hw : w ≤ i + 1) :
    windowSlice (List.replicate N a ++ l2) w i = List.replicate w a := by
  unfold windowSlice
  rw [List.take_append_of_le_length (by simpa using hiN)]
  rw [List.take_replicate, List.drop_replicate]
  congr 1
  omega

theorem madAt_const (xs : List ℚ) (w i : ℕ) (a : ℚ) (hw : w ≠ 0)
    (h : windowSlice xs w i = List.replicate w a) : madAt xs w i = 0 := by
  unfold madAt
  rw [h, mean_replicate w a hw, List.map_replicate]
  simp [mean]

theorem cciAt_flat (data : List Row) (w i : ℕ) (a : ℚ) (hw : w ≠ 0)
    (h : windowSlice (data.map typicalPrice) w i = List.replicate w a) :
    cciAt data w i = none := by
  unfold cciAt
  cases hr : rollingMeanAt (data.map typicalPrice) w i with
  | none => rfl
  | some m => rw [madAt_const _ _ _ _ hw h]; simp

theorem cciAt_early (data : List Row) (w i : ℕ) (h : ¬ w ≤ i + 1) :
    cciAt data w i = none := by
  unfold cciAt rollingMeanAt
  rw [if_neg (by omega)]

theorem filterMap_range_none {β : Type} (f : ℕ → Option β) (n : ℕ)
    (h : ∀ i < n, f i = none) : (List.range n).filterMap f = [] := by
  rw [List.filterMap_eq_nil_iff]
  intro a ha
  exact h a (List.mem_range.1 ha)

theorem typicalPrice_rowOf (v : ℚ) : typicalPrice (rowOf v) = v := by
  unfold typicalPrice rowOf
  ring

/- Evaluation of the pipeline on the concrete 200-day series. -/

theorem exData200_closes :
    exData200.map Row.close = List.replicate 198 (10 : ℚ) ++ [4, 20] := by
  simp [exData200, rowOf]

theorem exData200_tps :
    exData200.map typicalPrice = List.replicate 198 (10 : ℚ) ++ [4, 20] := by
  simp [exData200, List.map_replicate, typicalPrice_rowOf]

theorem exData200_length : exData200.length = 200 := by
  simp [exData200]

theorem exData200_cci_none (i : ℕ) (hi : i < 198) : cciAt exData200 4 i = none := by
  by_cases h3 : 4 ≤ i + 1
  · apply cciAt_flat exData200 4 i 10 (by norm_num)
    rw [exData200_tps]
    exact windowSlice_flat _ _ _ _ _ (by omega) h3
  · exact cciAt_early _ _ _ h3

theorem ws_2_198 :
    windowSlice (List.replicate 198 (10 : ℚ) ++ [4, 20]) 2 198 = [10, 4] := by
  unfold windowSlice
  rw [show (198 : ℕ) + 1 - 2 = 197 from rfl]
  rw [show (198 : ℕ) + 1 = (List.replicate 198 (10 : ℚ)).length + 1 by simp]
  rw [List.take_append]
  rw [List.drop_append_of_le_length (by simp)]
  simp
  try rfl

theorem ws_4_198 :
    windowSlice (List.replicate 198 (10 : ℚ) ++ [4, 20]) 4 198 = [10, 10, 10, 4] := by
  unfold windowSlice
  rw [show (198 : ℕ) + 1 - 4 = 195 from rfl]
  rw [show (198 : ℕ) + 1 = (List.replicate 198 (10 : ℚ)).length + 1 by simp]
  rw [List.take_append]
  rw [List.drop_append_of_le_length (by simp)]
  simp
  try rfl

theorem ws_2_199 :
    windowSlice (List.replicate 198 (10 : ℚ) ++ [4, 20]) 2 199 = [4, 20] := by
  unfold windowSlice
  rw [List.take_of_length_le (by simp)]
  rw [show (199 : ℕ) + 1 - 2 = 198 from rfl]
  rw [List.drop_append_of_le_length (by simp)]
  simp

theorem ws_4_199 :
    windowSlice (List.replicate 198 (10 : ℚ) ++ [4, 20]) 4 199 = [10, 10, 4, 20] := by
  unfold windowSlice
  rw [List.take_of_length_le (by simp)]
  rw [show (199 : ℕ) + 1 - 4 = 196 from rfl]
  rw [List.drop_append_of_le_length (by simp)]
  simp
  try rfl

theorem rm_2_198 : rollingMeanAt (exData200.map Row.close) 2 198 = some 7 := by
  unfold rollingMeanAt
  rw [if_pos (by omega)]
  rw [exData200_closes, ws_2_198]
  norm_num [mean]

theorem rm_4_198 : rollingMeanAt (exData200.map Row.close) 4 198 = some (17 / 2) := by
  unfold rollingMeanAt
  rw [if_pos (by omega)]
  rw [exData200_closes, ws_4_198]
  norm_num [mean]

theorem rm_2_199 : rollingMeanAt (exData200.map Row.close) 2 199 = some 12 := by
  unfold rollingMeanAt
  rw [if_pos (by omega)]
  rw [exData200_closes, ws_2_199]
  norm_num [mean]

theorem rm_4_199 : rollingMeanAt (exData200.map Row.close) 4 199 = some 11 := by
  unfold rollingMeanAt
  rw [if_pos (by omega)]
  rw [exData200_closes, ws_4_199]
  norm_num [mean]

theorem rmtp_4_198 :
    rollingMeanAt (exData200.map typicalPrice) 4 198 = some (17 / 2) := by
  unfold rollingMeanAt
  rw [if_pos (by omega)]
  rw [exData200_tps, ws_4_198]
  norm_num [mean]

theorem rmtp_4_199 :
    rollingMeanAt (exData200.map typicalPrice) 4 199 = some 11 := by
  unfold rollingMeanAt
  rw [if_pos (by omega)]
  rw [exData200_tps, ws_4_199]
  norm_num [mean]

theorem mad_4_198 : madAt (exData200.map typicalPrice) 4 198 = 9 / 4 := by
  unfold madAt
  rw [exData200_tps, ws_4_198]
  rw [show mean [(10 : ℚ), 10, 10, 4] = 17 / 2 by norm_num [mean]]
  norm_num [mean, abs]

theorem mad_4_199 : madAt (exData200.map typicalPrice) 4 199 = 9 / 2 := by
  unfold madAt
  rw [exData200_tps, ws_4_199]
  rw [show mean [(10 : ℚ), 10, 4, 20] = 11 by norm_num [mean]]
  norm_num [mean, abs]

theorem tps_getD_198 : (exData200.map typicalPrice).getD 198 0 = 4 := by
  rw [exData200_tps, List.getD_eq_getElem?_getD]
  rw [List.getElem?_append_right (by simp)]
  simp

theorem tps_getD_199 : (exData200.map typicalPrice).getD 199 0 = 20 := by
  rw [exData200_tps, List.getD_eq_getElem?_getD]
  rw [List.getElem?_append_right (by simp)]
  simp

theorem cci_198 : cciAt exData200 4 198 = some (-400 / 3) := by
  unfold cciAt
  rw [rmtp_4_198]
  rw [mad_4_198, tps_getD_198]
  norm_num

theorem cci_199 : cciAt exData200 4 199 = some (400 / 3) := by
  unfold cciAt
  rw [rmtp_4_199]
  rw [mad_4_199, tps_getD_199]
  norm_num

theorem exData200_getD_198 : exData200.getD 198 emptyRow = rowOf 4 := by
  rw [exData200, List.getD_eq_getElem?_getD]
  rw [List.getElem?_append_right (by simp)]
  simp

theorem exData200_getD_199 : exData200.getD 199 emptyRow = rowOf 20 := by
  rw [exData200, List.getD_eq_getElem?_getD]
  rw [List.getElem?_append_right (by simp)]
  simp

theorem apply_indicators_exData200 :
    apply_indicators exData200 exCfg = exEnriched := by
  unfold apply_indicators
  simp only [exCfg]
  rw [exData200_length]
  rw [show (200 : ℕ) = 199 + 1 from rfl, List.range_succ,
    show (199 : ℕ) = 198 + 1 from rfl, List.range_succ]
  rw [List.filterMap_append, List.filterMap_append]
  rw [filterMap_range_none _ _ ?flat]
  case flat =>
    intro i hi
    have hc := exData200_cci_none i hi
    cases rollingMeanAt (exData200.map Row.close) 2 i <;>
      cases rollingMeanAt (exData200.map Row.close) 4 i <;>
        simp [hc]
  simp only [List.filterMap_cons, List.filterMap_nil]
  rw [rm_2_198, rm_4_198, cci_198, rm_2_199, rm_4_199, cci_199]
  simp only [List.nil_append]
  rw [exData200_getD_198, exData200_getD_199]
  rfl

/- Helper lemmas about the crossover flag sequence. -/

theorem crossoverFlagsAux_length (xs : List ℚ) (prev : Option ℚ) :
    (crossoverFlagsAux prev xs).length = xs.length := by
  induction xs generalizing prev with
  | nil => rfl
  | cons d ds ih => simp [crossoverFlagsAux, ih]

theorem crossoverFlags_length (data : List ERow) :
    (crossoverFlags data).length = data.length := by
  rw [crossoverFlags, crossoverFlagsAux_length, smaDiffs, List.length_map]

theorem crossoverFlagsAux_get (xs : List ℚ) (prev : Option ℚ) (i : ℕ)
    (h : i < xs.length) :
    (crossoverFlagsAux prev xs).get ⟨i, by rw [crossoverFlagsAux_length]; exact h⟩ =
      crossFlag (if 1 ≤ i then some (xs.get ⟨i - 1, by omega⟩) else prev)
        (xs.get ⟨i, h⟩) := by
  induction xs generalizing prev i with
  | nil => simp at h
  | cons d ds ih =>
    cases i with
    | zero => rfl
    | succ j =>
      have hj : j < ds.length := by simpa using h
      have := ih (some d) j hj
      cases j with
      | zero => simpa using this
      | succ l => simpa using this

theorem smaDiffs_get (data : List ERow) (j : ℕ) (hj : j < data.length) :
    (smaDiffs data).get ⟨j, by simpa [smaDiffs] using hj⟩ =
      (data.get ⟨j, hj⟩).sma20 - (data.get ⟨j, hj⟩).sma200 := by
  simp [smaDiffs]

theorem crossoverFlags_get (data : List ERow) (i : ℕ) (h : i < data.length) :
    (crossoverFlags data).get ⟨i, by rw [crossoverFlags_length]; exact h⟩ =
      if 1 ≤ i then
        crossFlag
          (some ((data.get ⟨i - 1, by omega⟩).sma20 - (data.get ⟨i - 1, by omega⟩).sma200))
          ((data.get ⟨i, h⟩).sma20 - (data.get ⟨i, h⟩).sma200)
      else false := by
  have hd : i < (smaDiffs data).length := by simpa [smaDiffs] using h
  have hx := crossoverFlagsAux_get (smaDiffs data) none i hd
  by_cases hi : 1 ≤ i
  · rw [if_pos hi]
    rw [if_pos hi] at hx
    refine Eq.trans (b := (crossoverFlagsAux none (smaDiffs data)).get
      ⟨i, by rw [crossoverFlagsAux_length]; exact hd⟩) rfl (hx.trans ?_)
    rw [smaDiffs_get data (i - 1) (by omega), smaDiffs_get data i h]
  · rw [if_neg hi]
    rw [if_neg hi] at hx
    refine Eq.trans (b := (crossoverFlagsAux none (smaDiffs data)).get
      ⟨i, by rw [crossoverFlagsAux_length]; exact hd⟩) rfl (hx.trans ?_)
    simp [crossFlag]

theorem mem_drop_iff_get {α : Type} (l : List α) (m : ℕ) (x : α) :
    x ∈ l.drop m ↔ ∃ i : ℕ, ∃ h : i < l.length, m ≤ i ∧ l.get ⟨i, h⟩ = x := by
  induction l generalizing m with
  | nil => simp
  | cons a l ih =>
    cases m with
    | zero =>
      simp only [List.drop_zero]
      constructor
      · intro hx
        obtain ⟨⟨i, hi⟩, rfl⟩ := List.mem_iff_get.1 hx
        exact ⟨i, hi, Nat.zero_le _, rfl⟩
      · rintro ⟨i, hi, -, rfl⟩
        exact List.get_mem _ _ _
    | succ m =>
      rw [List.drop_succ_cons, ih]
      constructor
      · rintro ⟨i, hi, hm, rfl⟩
        exact ⟨i + 1, by simpa using Nat.succ_lt_succ hi, Nat.succ_le_succ hm, by simp⟩
      · rintro ⟨i, hi, hm, rfl⟩
        cases i with
        | zero => omega
        | succ j =>
          exact ⟨j, by simpa using hi, Nat.le_of_succ_le_succ hm, by simp⟩

/-- Claim C10: a fast/slow crossover located at the very first row of the
enriched series is never detected: the shifted difference there is NaN and
the at-or-below comparison against NaN is false, so the crossover flag at
position 0 is false for every enriched series. -/
theorem C10_first_position_flag_false (data : List ERow) (h : data ≠ []) :
    (crossoverFlags data).get
      ⟨0, by rw [crossoverFlags_length]; exact List.length_pos.2 h⟩ = false := by
  cases data with
  | nil => exact absurd rfl h
  | cons r rest => rfl

/-- Witness for C10 at a one-row series whose fast average already
exceeds its slow average on the first row. -/
theorem C10_witness :
    (crossoverFlags [⟨rowOf 1, 5, 0, 0⟩]).get
      ⟨0, by rw [crossoverFlags_length]; exact List.length_pos.2 (by simp)⟩ = false :=
  C10_first_position_flag_false [⟨rowOf 1, 5, 0, 0⟩] (by simp)

/-- Claim C2: the moving-average-crossover filter passes if and only if
some index among the trailing `days_before` transitions has the fast
average at or below the slow average on the previous row and strictly
above it on that row. -/
theorem C2_crossover_iff (data : List ERow) (cfg : Config) (k : ℕ)
    (hk : cfg.days_before = some k) :
    check_sma_crossover data cfg = true ↔
      ∃ i : ℕ, ∃ h : i < data.length, 1 ≤ i ∧ data.length - k ≤ i ∧
        (data.get ⟨i - 1, by omega⟩).sma20 ≤ (data.get ⟨i - 1, by omega⟩).sma200 ∧
        (data.get ⟨i, h⟩).sma200 < (data.get ⟨i, h⟩).sma20 := by
  have hlen := crossoverFlags_length data
  unfold check_sma_crossover
  rw [hk]
  unfold tailN
  rw [hlen]
  constructor
  · intro hany
    obtain ⟨x, hmem, hx⟩ := List.any_eq_true.1 hany
    simp only [id] at hx
    subst hx
    obtain ⟨i, hi, him, hget⟩ := (mem_drop_iff_get _ _ _).1 hmem
    have hid : i < data.length := by rwa [hlen] at hi
    rw [crossoverFlags_get data i hid] at hget
    by_cases h1 : 1 ≤ i
    · rw [if_pos h1] at hget
      simp only [crossFlag, decide_eq_true_eq] at hget
      refine ⟨i, hid, h1, him, ?_, ?_⟩
      · linarith [hget.1]
      · linarith [hget.2]
    · rw [if_neg h1] at hget
      exact absurd hget (by simp)
  · rintro ⟨i, h, h1, hwin, hle, hlt⟩
    apply List.any_eq_true.2
    refine ⟨true, ?_, rfl⟩
    apply (mem_drop_iff_get _ _ _).2
    refine ⟨i, by rwa [hlen], hwin, ?_⟩
    rw [crossoverFlags_get data i h, if_pos h1]
    simp only [crossFlag, decide_eq_true_eq]
    constructor
    · linarith
    · linarith

/-- A two-row enriched series whose fast average crosses from below the
slow average to above it between the rows. -/
def exCross : List ERow := [⟨rowOf 4, 7, 9, -200⟩, ⟨rowOf 20, 12, 11, 200⟩]

/-- Witness for C2 at a two-row enriched series crossing between the
rows, with a five-day lookback. -/
theorem C2_witness : check_sma_crossover exCross exCfg = true :=
  (C2_crossover_iff exCross exCfg 5 rfl).2
    ⟨1, by norm_num [exCross], le_refl 1, by norm_num [exCross],
      by show (7 : ℚ) ≤ 9; norm_num, by show (11 : ℚ) < 12; norm_num⟩

/- Evaluation of the filters on the concrete series. -/

theorem fetch_ok_exData200 : fetch_stock_data (Except.ok exData200) = exData200 := by
  simp only [fetch_stock_data]
  rw [if_neg]
  simp [exData200]

theorem exData200_volumes :
    exData200.map Row.volume = List.replicate 198 (100 : ℚ) ++ [100, 100] := by
  simp [exData200, rowOf]

theorem mean_tail_volumes : mean (tailN (exData200.map Row.volume) 50) = 100 := by
  have h1 : tailN (exData200.map Row.volume) 50
      = List.replicate 48 (100 : ℚ) ++ [100, 100] := by
    rw [exData200_volumes]
    unfold tailN
    have hL : (List.replicate 198 (100 : ℚ) ++ [100, 100]).length = 200 := by simp
    rw [hL]
    rw [show (200 : ℕ) - 50 = 150 from rfl]
    rw [List.drop_append_of_le_length (by simp)]
    rw [List.drop_replicate]
  rw [h1]
  unfold mean
  simp [List.sum_replicate, nsmul_eq_mul]
  norm_num

theorem exData200_getLast : exData200.getLast? = some (rowOf 20) := by
  rw [exData200]
  rw [show [rowOf 4, rowOf 20] = [rowOf 4] ++ [rowOf 20] from rfl]
  rw [← List.append_assoc, List.getLast?_concat]

theorem check_vp_exData200 : check_volume_and_price exData200 exCfg = true := by
  unfold check_volume_and_price
  simp only [show exCfg.volume_threshold = some 1 from rfl,
    show exCfg.price_threshold = some 1 from rfl, exData200_getLast]
  rw [mean_tail_volumes]
  simp only [rowOf, decide_eq_true_eq]
  norm_num

theorem minCci_exEnriched :
    (tailN (exEnriched.map ERow.cci) 4).min? = some (-400 / 3) := by
  simp [exEnriched, tailN, List.min?, min_def]
  norm_num

theorem lastCci_exEnriched :
    (tailN (exEnriched.map ERow.cci) 4).getLast? = some (400 / 3) := by
  simp [exEnriched, tailN]

theorem check_cci_exEnriched : check_cci_rise exEnriched exCfg = true := by
  unfold check_cci_rise
  simp only [show exCfg.cci_window = some 4 from rfl, minCci_exEnriched,
    lastCci_exEnriched, decide_eq_true_eq]
  norm_num

theorem check_sma_exEnriched : check_sma_crossover exEnriched exCfg = true := by
  unfold check_sma_crossover
  simp only [show exCfg.days_before = some 5 from rfl]
  have hf : crossoverFlags exEnriched = [false, true] := by
    unfold crossoverFlags smaDiffs exEnriched
    norm_num [crossoverFlagsAux, crossFlag]
  rw [hf]
  simp [tailN]

theorem pyRound2_20 : pyRound2 20 = 20 := by norm_num [pyRound2]

theorem pyRound2_12 : pyRound2 12 = 12 := by norm_num [pyRound2]

theorem pyRound2_11 : pyRound2 11 = 11 := by norm_num [pyRound2]

theorem pyRound2_p400 : pyRound2 (400 / 3) = 13333 / 100 := by norm_num [pyRound2]

theorem pyRound2_m400 : pyRound2 (-400 / 3) = -13333 / 100 := by norm_num [pyRound2]

theorem avgVol_exEnriched :
    intTrunc (mean (tailN (exEnriched.map fun r => r.row.volume) 50)) = 100 := by
  rw [show (exEnriched.map fun r => r.row.volume) = [100, 100] by
    simp [exEnriched, rowOf]]
  norm_num [tailN, mean, intTrunc]

/-- The record that the concrete 200-day series produces. -/
def exResult : Result := ⟨"T", 20, 13333 / 100, 12, 11, 100⟩

theorem processTicker_exData200 :
    processTicker "T" (Except.ok exData200) exCfg = some exResult := by
  have hemp : exData200.isEmpty = false := by simp [exData200]
  have hemp2 : exEnriched.isEmpty = false := rfl
  have hlast : exEnriched.getLast? = some ⟨rowOf 20, 12, 11, 400 / 3⟩ := rfl
  unfold processTicker processTickerGen
  rw [fetch_ok_exData200, check_vp_exData200, apply_indicators_exData200,
    check_cci_exEnriched, check_sma_exEnriched, hemp, hemp2, hlast]
  simp only [Bool.not_true, Bool.false_eq_true, if_false, Option.some.injEq]
  simp [exResult, rowOf, pyRound2_20, pyRound2_p400, pyRound2_12, pyRound2_11,
    avgVol_exEnriched]

theorem analyze_exData200 :
    analyze_stocks ["T"] "s" "e" (fun _ _ _ => Except.ok exData200) exCfg =
      [exResult] := by
  simp [analyze_stocks, processTicker_exData200]

/- Claim C1: oscillator-excursion thresholds. -/

/-- A configuration carrying the spec's alternate oscillator thresholds
(low −90) alongside the window keys the code reads. -/
def exCfgLow90 : Config :=
  ⟨some 2, some 4, some 2, some 5, some 1, some 1, some (-90), some 100⟩

/-- A two-row enriched series whose oscillator dips to −95 and ends
at 150. -/
def exCciData : List ERow := [⟨rowOf 1, 0, 0, -95⟩, ⟨rowOf 1, 0, 0, 150⟩]

/-- Counterexample to C1: with `oscillator_low_threshold = −90` in the
configuration, a window whose minimum is −95 and last value 150
satisfies the claim's configured-threshold condition (−95 < −90 and
150 > 100), yet the filter rejects it, because the code compares against
the hard-coded −100, ignoring the configured thresholds. -/
theorem C1_counterexample :
    check_cci_rise exCciData exCfgLow90 = false ∧
    check_cci_rise_specModel exCciData exCfgLow90 = true := by
  have hmin : (tailN (exCciData.map ERow.cci) 2).min? = some (-95) := by
    simp [exCciData, tailN, List.min?, min_def]
    norm_num
  have hlast : (tailN (exCciData.map ERow.cci) 2).getLast? = some 150 := by
    simp [exCciData, tailN]
  constructor
  · unfold check_cci_rise
    simp only [show exCfgLow90.cci_window = some 2 from rfl, hmin, hlast,
      decide_eq_false_iff_not]
    norm_num
  · unfold check_cci_rise_specModel
    simp only [show exCfgLow90.cci_window = some 2 from rfl,
      show exCfgLow90.oscillator_low_threshold = some (-90) from rfl,
      show exCfgLow90.oscillator_high_threshold = some 100 from rfl,
      hmin, hlast, decide_eq_true_eq]
    norm_num

/-- Claim C1 (amended): the oscillator-excursion filter passes if and
only if the minimum of the trailing `cci_window` oscillator values is
strictly below the hard-coded −100 and the last value in that window is
strictly above the hard-coded +100; the configured threshold keys are
never consulted. -/
theorem C1_amended_hardcoded (data : List ERow) (cfg : Config) (w : ℕ) (m cur : ℚ)
    (hw : cfg.cci_window = some w)
    (hm : (tailN (data.map ERow.cci) w).min? = some m)
    (hc : (tailN (data.map ERow.cci) w).getLast? = some cur) :
    check_cci_rise data cfg = true ↔ (m < -100 ∧ 100 < cur) := by
  unfold check_cci_rise
  rw [hw]
  simp only [hm, hc, decide_eq_true_eq]

/-- A two-row enriched series with an oscillator excursion from −101
to 101. -/
def exC1W : List ERow := [⟨rowOf 1, 0, 0, -101⟩, ⟨rowOf 1, 0, 0, 101⟩]

/-- Witness for C1's amended theorem at a concrete series. -/
theorem C1_witness : check_cci_rise exC1W exCfg = true :=
  (C1_amended_hardcoded exC1W exCfg 4 (-101) 101 rfl
    (by simp [exC1W, tailN, List.min?, min_def]; try norm_num)
    (by simp [exC1W, tailN])).mpr (by norm_num)

/- Claim C3: zero mean absolute deviation. -/

/-- A five-day series with constant high, low and close. -/
def c3data : List Row := List.replicate 5 (rowOf 10)

/-- A small-window configuration for the constant series. -/
def c3cfg : Config :=
  ⟨some 1, some 1, some 3, some 5, some 1, some 1, some (-100), some 100⟩

theorem c3_tps : c3data.map typicalPrice = List.replicate 5 (10 : ℚ) ++ [] := by
  simp [c3data, List.map_replicate, typicalPrice_rowOf]

theorem c3_ws : windowSlice (c3data.map typicalPrice) 3 4 = List.replicate 3 10 := by
  rw [c3_tps]
  exact windowSlice_flat [] 10 5 3 4 (by omega) (by omega)

/-- Counterexample to C3: on a series whose high, low and close are
constant over a full oscillator window, the oscillator value at those
positions is NaN (`none`), not 0, and the NaN-dropping step removes
every row, leaving an empty enriched frame. -/
theorem C3_counterexample :
    apply_indicators c3data c3cfg = [] ∧ cciAt c3data 3 4 = none := by
  have hnone : ∀ i, i < 5 → cciAt c3data 3 i = none := by
    intro i hi
    by_cases h3 : 3 ≤ i + 1
    · apply cciAt_flat c3data 3 i 10 (by norm_num)
      rw [c3_tps]
      exact windowSlice_flat _ _ _ _ _ (by omega) h3
    · exact cciAt_early _ _ _ h3
  refine ⟨?_, hnone 4 (by omega)⟩
  unfold apply_indicators
  simp only [c3cfg]
  rw [show c3data.length = 5 by simp [c3data]]
  apply filterMap_range_none
  intro i hi
  have hc := hnone i hi
  cases rollingMeanAt (c3data.map Row.close) 1 i <;> simp [hc]

/-- Claim C3 (amended): indicator computation never faults, but whenever
the mean absolute deviation of a full window is zero the oscillator
value at that position is undefined (NaN, modelled `none`), so the row
carries no zero value and is removed by the NaN-dropping step. -/
theorem C3_amended_nan (data : List Row) (w i : ℕ)
    (h : madAt (data.map typicalPrice) w i = 0) :
    cciAt data w i = none := by
  unfold cciAt
  cases hr : rollingMeanAt (data.map typicalPrice) w i with
  | none => rfl
  | some m => simp [h]

/-- Witness for C3's amended theorem at the constant series. -/
theorem C3_witness : cciAt c3data 3 4 = none :=
  C3_amended_nan c3data 3 4 (madAt_const _ 3 4 10 (by norm_num) c3_ws)

/- Claim C4: short series are skipped before any filter. -/

/-- Claim C4: a series shorter than the hard-coded 200-row minimum is
discarded by the sufficiency check, the ticker produces no result
whatever the three filter predicates would say (so no later filter
executes), and the surrounding loop continues with the remaining
tickers. -/
theorem C4_short_series_skipped (t : String) (data : List Row) (cfg : Config)
    (h : data.length < 200) :
    (∀ cVP cCCI cX, processTickerGen cVP cCCI cX t (Except.ok data) cfg = none) ∧
    processTicker t (Except.ok data) cfg = none ∧
    (∀ (rest : List String) (sd ed : String) provider,
      provider t sd ed = Except.ok data →
      analyze_stocks (t :: rest) sd ed provider cfg =
        analyze_stocks rest sd ed provider cfg) := by
  have hf : fetch_stock_data (Except.ok data) = [] := by
    simp only [fetch_stock_data]
    rw [if_pos (Or.inr h)]
  have hgen : ∀ cVP cCCI cX,
      processTickerGen cVP cCCI cX t (Except.ok data) cfg = none := by
    intro cVP cCCI cX
    unfold processTickerGen
    rw [hf]
    simp
  refine ⟨hgen, hgen _ _ _, ?_⟩
  intro rest sd ed provider hp
  unfold analyze_stocks
  rw [List.filterMap_cons, hp]
  unfold processTicker
  rw [hgen _ _ _]

/-- Witness for C4 at a 199-row series. -/
theorem C4_witness :
    processTicker "T" (Except.ok (List.replicate 199 (rowOf 10))) exCfg = none :=
  (C4_short_series_skipped "T" (List.replicate 199 (rowOf 10)) exCfg
    (by simp)).2.1

/- Claim C5: missing configuration keys do not abort the run. -/

/-- A configuration whose required `volume_threshold` key is absent. -/
def cfgMissingVol : Config :=
  ⟨some 2, some 4, some 4, some 5, none, some 1, some (-100), some 100⟩

/-- Counterexample to C5: a configuration missing the required
`volume_threshold` key is accepted by `load_config` unchanged (no error
surfaced, no abort), and a full run over a 200-day series completes,
silently rejecting the ticker through the liquidity filter's exception
handler instead. -/
theorem C5_counterexample :
    load_config (some cfgMissingVol) = Except.ok cfgMissingVol ∧
    check_volume_and_price exData200 cfgMissingVol = false ∧
    analyze_stocks ["T"] "s" "e" (fun _ _ _ => Except.ok exData200) cfgMissingVol
      = [] := by
  have hvp : check_volume_and_price exData200 cfgMissingVol = false := by
    unfold check_volume_and_price
    cases hl : exData200.getLast? <;> rfl
  refine ⟨rfl, hvp, ?_⟩
  have hpt : processTicker "T" (Except.ok exData200) cfgMissingVol = none := by
    unfold processTicker processTickerGen
    rw [fetch_ok_exData200, hvp]
    simp [exData200]
  simp [analyze_stocks, hpt]

/-- Claim C5 (amended): only a configuration file that fails to load or
parse aborts the run with a surfaced error; a parsed configuration
missing a required key is not rejected at load time, and each filter's
exception handler converts the missing key into a per-ticker filter
failure, so the run continues and the ticker is silently rejected. -/
theorem C5_amended_no_abort :
    load_config none = Except.error () ∧
    (∀ (data : List Row) (cfg : Config), cfg.volume_threshold = none →
      check_volume_and_price data cfg = false) := by
  refine ⟨rfl, ?_⟩
  intro data cfg h
  unfold check_volume_and_price
  rw [h]

/-- Witness for C5's amended theorem at the concrete configuration. -/
theorem C5_witness : check_volume_and_price exData200 cfgMissingVol = false :=
  C5_amended_no_abort.2 exData200 cfgMissingVol rfl

/- Claim C6: shape of the result record. -/

/-- Counterexample to C6: the ticker of `exData200` passes every filter
and its oscillator minimum over the lookback window is −400/3 ≈ −133.33,
yet no field of the produced record equals that minimum (raw or rounded):
the record stores only the current oscillator value.  The columns are
Ticker, Last Price, CCI, SMA20, SMA200 and Average Volume — there is no
Oscillator Min column, and Average Volume is truncated to an integer. -/
theorem C6_counterexample :
    analyze_stocks ["T"] "s" "e" (fun _ _ _ => Except.ok exData200) exCfg
      = [exResult] ∧
    (tailN ((apply_indicators exData200 exCfg).map ERow.cci) 4).min?
      = some (-400 / 3) ∧
    pyRound2 (-400 / 3) = -13333 / 100 ∧
    exResult.lastPrice ≠ -400 / 3 ∧ exResult.cci ≠ -400 / 3 ∧
    exResult.sma20 ≠ -400 / 3 ∧ exResult.sma200 ≠ -400 / 3 ∧
    (exResult.avgVolume : ℚ) ≠ -400 / 3 ∧
    exResult.lastPrice ≠ -13333 / 100 ∧ exResult.cci ≠ -13333 / 100 ∧
    exResult.sma20 ≠ -13333 / 100 ∧ exResult.sma200 ≠ -13333 / 100 ∧
    (exResult.avgVolume : ℚ) ≠ -13333 / 100 :=
  ⟨analyze_exData200,
   by rw [apply_indicators_exData200]; exact minCci_exEnriched,
   pyRound2_m400,
   by norm_num [exResult], by norm_num [exResult], by norm_num [exResult],
   by norm_num [exResult], by norm_num [exResult], by norm_num [exResult],
   by norm_num [exResult], by norm_num [exResult], by norm_num [exResult],
   by norm_num [exResult]⟩

/-- Claim C6 (amended): the record of a passing ticker holds the ticker,
the enriched frame's last close, last oscillator value, last fast and
slow averages — each rounded to two decimals — and the trailing mean
volume of the enriched frame truncated to an integer; the oscillator
minimum is not part of the record. -/
theorem C6_amended_record_shape (t : String) (download : Except Unit (List Row))
    (cfg : Config) (r : Result) (lastRow : ERow)
    (h : processTicker t download cfg = some r)
    (hl : (apply_indicators (fetch_stock_data download) cfg).getLast?
      = some lastRow) :
    r = { ticker := t
          lastPrice := pyRound2 lastRow.row.close
          cci := pyRound2 lastRow.cci
          sma20 := pyRound2 lastRow.sma20
          sma200 := pyRound2 lastRow.sma200
          avgVolume := intTrunc (mean (tailN
            ((apply_indicators (fetch_stock_data download) cfg).map
              fun r => r.row.volume) 50)) } := by
  unfold processTicker processTickerGen at h
  split at h
  · exact absurd h (by simp)
  split at h
  · exact absurd h (by simp)
  split at h
  · exact absurd h (by simp)
  split at h
  · exact absurd h (by simp)
  split at h
  · exact absurd h (by simp)
  rw [hl] at h
  simp only [Option.some.injEq] at h
  exact h.symm

/-- Witness for C6's amended theorem at the concrete run. -/
theorem C6_witness :
    exResult =
      { ticker := "T"
        lastPrice := pyRound2 (rowOf 20).close
        cci := pyRound2 (400 / 3)
        sma20 := pyRound2 12
        sma200 := pyRound2 11
        avgVolume := intTrunc (mean (tailN
          ((apply_indicators (fetch_stock_data (Except.ok exData200)) exCfg).map
            fun r => r.row.volume) 50)) } :=
  C6_amended_record_shape "T" (Except.ok exData200) exCfg exResult
    ⟨rowOf 20, 12, 11, 400 / 3⟩ processTicker_exData200
    (by rw [fetch_ok_exData200, apply_indicators_exData200]; rfl)

/- Claim C7: liquidity and price floor. -/

/-- Claim C7: the liquidity filter passes if and only if the mean volume
over the trailing 50 rows (all rows when fewer) strictly exceeds the
configured volume threshold and the last close strictly exceeds the
configured price threshold. -/
theorem C7_volume_price_iff (data : List Row) (cfg : Config) (vt pt : ℚ)
    (lastRow : Row)
    (hv : cfg.volume_threshold = some vt) (hp : cfg.price_threshold = some pt)
    (hl : data.getLast? = some lastRow) :
    check_volume_and_price data cfg = true ↔
      (vt < mean (tailN (data.map Row.volume) 50) ∧ pt < lastRow.close) := by
  unfold check_volume_and_price
  rw [hv, hp, hl]
  simp [decide_eq_true_eq]

/-- Witness for C7 at a one-row series. -/
theorem C7_witness : check_volume_and_price [rowOf 20] exCfg = true :=
  (C7_volume_price_iff [rowOf 20] exCfg 1 1 (rowOf 20) rfl rfl rfl).mpr
    (by constructor
        · show (1 : ℚ) < mean (tailN ([rowOf 20].map Row.volume) 50)
          norm_num [rowOf, tailN, mean]
        · show (1 : ℚ) < (rowOf 20).close
          norm_num [rowOf])

/- Claim C8: per-ticker faults never abort the run. -/

/-- A provider whose download always fails. -/
def provFail : String → String → String → Except Unit (List Row) :=
  fun _ _ _ => Except.error ()

/-- Claim C8: the loop over tickers is a filterMap, so the head ticker's
outcome — result or none — never prevents the remaining tickers from
being processed; a failed download yields no result; a series shorter
than the minimum yields no result; and each filter predicate returns
false (fails closed) on an empty frame. -/
theorem C8_faults_isolated (tickers : List String) (sd ed : String)
    (provider : String → String → String → Except Unit (List Row))
    (cfg : Config) (t : String) :
    analyze_stocks (t :: tickers) sd ed provider cfg =
      (processTicker t (provider t sd ed) cfg).toList ++
        analyze_stocks tickers sd ed provider cfg ∧
    (∀ err, provider t sd ed = Except.error err →
      processTicker t (provider t sd ed) cfg = none) ∧
    (∀ data2 : List Row, data2.length < 200 →
      processTicker t (Except.ok data2) cfg = none) ∧
    (∀ cfg2 : Config, check_volume_and_price [] cfg2 = false ∧
      check_cci_rise [] cfg2 = false ∧ check_sma_crossover [] cfg2 = false) := by
  refine ⟨?_, ?_, ?_, ?_⟩
  · unfold analyze_stocks
    rw [List.filterMap_cons]
    cases processTicker t (provider t sd ed) cfg <;> simp
  · intro err hp
    rw [hp]
    unfold processTicker processTickerGen
    simp [fetch_stock_data]
  · intro data2 hlen
    unfold processTicker processTickerGen
    have hf : fetch_stock_data (Except.ok data2) = [] := by
      simp only [fetch_stock_data]
      rw [if_pos (Or.inr hlen)]
    rw [hf]
    simp
  · intro cfg2
    refine ⟨?_, ?_, ?_⟩
    · unfold check_volume_and_price
      cases cfg2.volume_threshold <;> cases cfg2.price_threshold <;> rfl
    · unfold check_cci_rise
      cases cfg2.cci_window with
      | none => rfl
      | some w => simp [tailN]
    · unfold check_sma_crossover
      cases cfg2.days_before with
      | none => rfl
      | some k => simp [tailN, crossoverFlags, smaDiffs, crossoverFlagsAux]

/-- Witness for C8: a failing provider yields no result for its ticker,
and the empty-frame predicates fail closed, at concrete inputs. -/
theorem C8_witness :
    processTicker "A" (provFail "A" "s" "e") exCfg = none ∧
    check_cci_rise [] exCfg = false :=
  ⟨(C8_faults_isolated [] "s" "e" provFail exCfg "A").2.1 () rfl,
   ((C8_faults_isolated [] "s" "e" provFail exCfg "A").2.2.2 exCfg).2.1⟩

/- Claim C9: determinism of the pipeline. -/

/-- Claim C9: the pipeline is a pure function of the ticker universe,
the date range, the provider snapshot and the configuration — two runs
on identical inputs produce identical result lists. -/
theorem C9_deterministic (t₁ t₂ : List String) (s₁ s₂ e₁ e₂ : String)
    (p₁ p₂ : String → String → String → Except Unit (List Row))
    (c₁ c₂ : Config)
    (ht : t₁ = t₂) (hs : s₁ = s₂) (he : e₁ = e₂) (hp : p₁ = p₂) (hc : c₁ = c₂) :
    analyze_stocks t₁ s₁ e₁ p₁ c₁ = analyze_stocks t₂ s₂ e₂ p₂ c₂ := by
  subst ht hs he hp hc
  rfl

/-- Witness for C9 at a concrete run. -/
theorem C9_witness :
    analyze_stocks ["T"] "s" "e" provFail exCfg =
      analyze_stocks ["T"] "s" "e" provFail exCfg :=
  C9_deterministic ["T"] ["T"] "s" "s" "e" "e" provFail provFail exCfg exCfg
    rfl rfl rfl rfl rfl

end Seeker
